import Mathlib

/-!
Verification of the Intelligence-Report-Generator core: the file
normalization pipeline (`DataSourceManager.parseFile` and friends), the
source registry (`DataSourceManager`), the heuristic analysis engine
(`AnalysisEngine`) and the report compiler (`ReportGenerator`).

The TypeScript source is shallowly embedded:
* JS strings are Lean `String`s; the JS `String.prototype` methods used by
  the code (`split` on a one-character separator, `trim`, `toLowerCase`,
  `toUpperCase`, `includes`, `substring(0, n)`) are re-implemented
  character-wise below so that they compute inside the kernel.
* JS objects holding ingested records are insertion-ordered association
  lists (`Rec`); property assignment is `objSet` (overwrite in place,
  append when fresh), matching JS object-literal assignment semantics.
* `Map` containers are insertion-ordered association lists with
  `setAssoc` / `lookupAssoc` (`Map.set` keeps the position of an existing
  key, exactly like the JS `Map`).
* Dates are abstract instants (`Nat`); `Math.random`-driven choices are
  passed in as explicit oracles (`Rand`, generated ids as parameters);
  platform capabilities with no repository logic (JSON.parse, DOMParser
  plus DOM queries, jsPDF painting, Blob/createObjectURL, `toFixed`,
  `toLocaleString`, `toISOString`) are fields of explicit platform
  records.
* Fallible code returns `Except String` carrying the thrown `Error`
  message; event emission is modelled by returning the list of emitted
  events.
-/

namespace IRG

/-! ## JS string primitives (character-wise, kernel-computable) -/

/-- `text.split(sep)` for a one-character separator, on character lists. -/
def splitCh (c : Char) : List Char → List (List Char)
  | [] => [[]]
  | a :: as =>
    if a = c then [] :: splitCh c as
    else
      match splitCh c as with
      | [] => [[a]]
      | g :: gs => (a :: g) :: gs

/-- JS `text.split(sep)` for a one-character separator. -/
def jsSplit (c : Char) (s : String) : List String :=
  (splitCh c s.data).map String.mk

/-- The whitespace class used by `trim`. -/
def isWs (c : Char) : Bool := c = ' ' || c = '\t' || c = '\n' || c = '\r'

/-- JS `s.trim()`. -/
def jsTrim (s : String) : String :=
  String.mk (((s.data.dropWhile isWs).reverse.dropWhile isWs).reverse)

/-- ASCII lower-casing of one character (JS `toLowerCase` on the ASCII
identifiers this code lower-cases). -/
def lowerCh (c : Char) : Char :=
  if 'A' ≤ c ∧ c ≤ 'Z' then Char.ofNat (c.toNat + 32) else c

/-- JS `s.toLowerCase()`. -/
def jsToLower (s : String) : String := String.mk (s.data.map lowerCh)

/-- ASCII upper-casing of one character (JS `toUpperCase`). -/
def upperCh (c : Char) : Char :=
  if 'a' ≤ c ∧ c ≤ 'z' then Char.ofNat (c.toNat - 32) else c

/-- JS `s.toUpperCase()`. -/
def jsToUpper (s : String) : String := String.mk (s.data.map upperCh)

/-- Substring occurrence on character lists. -/
def containsCh (pat : List Char) : List Char → Bool
  | [] => pat.isEmpty
  | c :: rest => pat.isPrefixOf (c :: rest) || containsCh pat rest

/-- JS `s.includes(pat)`. -/
def jsIncludes (s pat : String) : Bool := containsCh pat.data s.data

/-- JS `s.substring(0, n)` (character-indexed). -/
def jsTake (s : String) (n : Nat) : String := String.mk (s.data.take n)

/-- Truthiness of a JS string: nonempty. -/
def strTruthy (s : String) : Bool := !s.data.isEmpty

/-! ## Dynamic record values -/

/-- A dynamic JS value stored in an ingested record: the code only ever
stores strings, integers and (for the demo generator) fractional
numbers in record fields. -/
inductive Val where
  | str (s : String)
  | int (n : Int)
  | rat (q : ℚ)
deriving DecidableEq

/-- One normalized record: a JS object as an insertion-ordered
association list of properties. -/
abbrev Rec := List (String × Val)

/-- Does the object have the property? -/
def hasKey (r : Rec) (k : String) : Bool := r.any (fun p => p.1 == k)

/-- JS property assignment `r[k] = v`: overwrite in place if the key
exists (keeping its position), append otherwise. -/
def objSet (r : Rec) (k : String) (v : Val) : Rec :=
  if hasKey r k then r.map (fun p => if p.1 == k then (k, v) else p)
  else r ++ [(k, v)]

/-- JS property read `r.k` (`none` = `undefined`). -/
def field (r : Rec) (k : String) : Option Val :=
  (r.find? (fun p => p.1 == k)).map Prod.snd

/-- JS truthiness of a possibly-absent value. -/
def truthy : Option Val → Bool
  | none => false
  | some (Val.str s) => strTruthy s
  | some (Val.int n) => n ≠ 0
  | some (Val.rat q) => q ≠ 0

/-- JS string interpolation of a value. -/
def valToString : Val → String
  | Val.str s => s
  | Val.int n => toString n
  | Val.rat q => toString q

/-! ## Files and the Record Normalizer (`DataSourceManager.parse*`) -/

/-- An uploaded file: a name and its full text
(`file.text()` resolved). -/
structure File where
  name : String
  text : String
deriving DecidableEq

/-- Result of the platform JSON parser (`JSON.parse` combined with the
`Array.isArray` test): a JSON array of records, or a single value. -/
inductive JsonValue where
  | arr (elems : List Rec)
  | single (r : Rec)
deriving DecidableEq

/-- Platform capabilities used by the normalizer but implemented outside
the repository: `JSON.parse`, `DOMParser` with the
`item, record, entry` DOM query of `parseXML`, and
`new Date().toISOString()`. -/
structure ParsePlatform where
  jsonParse : String → Option JsonValue
  xmlParse : String → Option (List Rec)
  isoNow : String

/-- `DataSourceManager.parseJSON`: array becomes the record list, any
other value a one-element list, a parse failure becomes the
`Invalid JSON format` error. -/
def parseJSON (p : ParsePlatform) (text : String) : Except String (List Rec) :=
  match p.jsonParse text with
  | none => Except.error "Invalid JSON format"
  | some (JsonValue.arr elems) => Except.ok elems
  | some (JsonValue.single r) => Except.ok [r]

/-- The non-blank lines of a CSV text:
`text.split('\n').filter(line => line.trim())`. -/
def csvLines (text : String) : List String :=
  (jsSplit '\n' text).filter (fun line => !(jsTrim line).data.isEmpty)

/-- The header names: `lines[0].split(',').map(h => h.trim())`. -/
def csvHeaders (text : String) : List String :=
  (jsSplit ',' ((csvLines text).headD "")).map jsTrim

/-- The `headers.forEach((header, index) => row[header] =
values[index] || '')` loop: an absent value and an empty value both
store the empty string, which is `values.getD index ""` here. -/
def buildRowAux (row : Rec) (headers values : List String) (i : Nat) : Rec :=
  match headers with
  | [] => row
  | h :: t => buildRowAux (objSet row h (Val.str (values.getD i ""))) t values (i + 1)

/-- One CSV data row turned into a record. -/
def buildRow (headers values : List String) : Rec := buildRowAux [] headers values 0

/-- `DataSourceManager.parseCSV`. -/
def parseCSV (text : String) : Except String (List Rec) :=
  let lines := csvLines text
  if lines.length < 2 then Except.error "CSV must have header and data rows"
  else
    let headers := csvHeaders text
    Except.ok ((lines.drop 1).map (fun line => buildRow headers ((jsSplit ',' line).map jsTrim)))

/-- `DataSourceManager.parseXML`: the DOM parsing and the
`item, record, entry` child-element extraction are the platform's
(`DOMParser`); a reported parse error becomes `Invalid XML format`. -/
def parseXML (p : ParsePlatform) (text : String) : Except String (List Rec) :=
  match p.xmlParse text with
  | none => Except.error "Invalid XML format"
  | some items => Except.ok items

/-- `DataSourceManager.parseText`: one record per non-blank line with a
1-based id, the trimmed line and the capture-time ISO timestamp. -/
def parseText (isoNow : String) (text : String) : List Rec :=
  ((jsSplit '\n' text).filter (fun line => !(jsTrim line).data.isEmpty)).enum.map
    (fun pr =>
      [("id", Val.int (pr.1 + 1 : Int)),
       ("content", Val.str (jsTrim pr.2)),
       ("timestamp", Val.str isoNow)])

/-- `DataSourceManager.parseFile`: dispatch on the lower-cased last
dot-separated component of the file name. -/
def parseFile (p : ParsePlatform) (file : File) : Except String (List Rec) :=
  let extension := jsToLower ((jsSplit '.' file.name).getLastD "")
  if extension = "json" then parseJSON p file.text
  else if extension = "csv" then parseCSV file.text
  else if extension = "xml" then parseXML p file.text
  else if extension = "txt" then Except.ok (parseText p.isoNow file.text)
  else Except.error ("Unsupported file type: " ++ extension)

/-! ## The Source Registry (`DataSourceManager`) -/

/-- A registered source.  The status strings are
`active` / `inactive` / `error`; `config` keeps the originating file for
file sources. -/
structure DataSource where
  id : String
  name : String
  «type» : String
  url : String
  status : String
  lastUpdated : Nat
  config : Option File
deriving DecidableEq

/-- `Map.set`: overwrite in place when the key exists (the JS `Map`
keeps the original position), append otherwise. -/
def setAssoc {α : Type} (m : List (String × α)) (k : String) (v : α) : List (String × α) :=
  if m.any (fun p => p.1 == k) then m.map (fun p => if p.1 == k then (k, v) else p)
  else m ++ [(k, v)]

/-- `Map.get`. -/
def lookupAssoc {α : Type} (m : List (String × α)) (k : String) : Option α :=
  (m.find? (fun p => p.1 == k)).map Prod.snd

/-- The manager's two maps: `sources` and `data`, both keyed by source
id in insertion order. -/
structure ManagerState where
  sources : List (String × DataSource) := []
  data : List (String × List Rec) := []
deriving DecidableEq

/-- The empty registry. -/
def emptyManager : ManagerState := {}

/-- An event emitted by the manager. -/
inductive Event where
  | sourceAdded (s : DataSource)
  | dataProcessed (sourceId : String) (data : List Rec)
  | sourceUpdated (s : DataSource)
  | sourceRemoved (s : DataSource)
deriving DecidableEq

/-- Is the event a `sourceAdded` notification? -/
def isSourceAdded : Event → Bool
  | Event.sourceAdded _ => true
  | _ => false

/-- Is the event a `dataProcessed` notification? -/
def isDataProcessed : Event → Bool
  | Event.dataProcessed _ _ => true
  | _ => false

instance instDecEqExcept {ε α : Type} [DecidableEq ε] [DecidableEq α] :
    DecidableEq (Except ε α) := fun a b => by
  cases a <;> cases b
  case error.error x y =>
    exact if h : x = y then isTrue (by rw [h]) else isFalse (by intro hh; injection hh; contradiction)
  case error.ok x y => exact isFalse (by intro hh; cases hh)
  case ok.error x y => exact isFalse (by intro hh; cases hh)
  case ok.ok x y =>
    exact if h : x = y then isTrue (by rw [h]) else isFalse (by intro hh; injection hh; contradiction)

/-- The source object `addFileSource` builds for a file. -/
def fileSource (newId : String) (now : Nat) (file : File) (status : String) : DataSource :=
  { id := newId, name := file.name, «type» := "custom",
    url := "file://" ++ file.name, status := status,
    lastUpdated := now, config := some file }

/-- Output of one `addFileSource` call: the new state, the emitted
events in order, and the returned source or re-raised parse error. -/
structure AddFileOut where
  state : ManagerState
  events : List Event
  result : Except String DataSource
deriving DecidableEq

/-- `DataSourceManager.addFileSource`.  The generated id and the current
instant are passed in (`generateId` is a `Math.random` token, `new
Date()` the clock).  The source object is registered first; on parse
success the records are stored, `status` is (re)set to `active` and
`sourceAdded` plus `dataProcessed` fire; on parse failure the already
registered source object is mutated to `status = "error"`, only
`sourceAdded` fires, and the parse error is re-thrown. -/
def addFileSource (p : ParsePlatform) (st : ManagerState) (newId : String) (now : Nat)
    (file : File) : AddFileOut :=
  let source := fileSource newId now file "active"
  let st1 : ManagerState := { st with sources := setAssoc st.sources newId source }
  match parseFile p file with
  | Except.ok data =>
    let st2 : ManagerState := { st1 with data := setAssoc st1.data newId data }
    { state := st2,
      events := [Event.sourceAdded source, Event.dataProcessed newId data],
      result := Except.ok source }
  | Except.error e =>
    let errSource := { source with status := "error" }
    { state := { st1 with sources := setAssoc st1.sources newId errSource },
      events := [Event.sourceAdded errSource],
      result := Except.error e }

/-- A `Partial<DataSource>`: every field optional. -/
structure SourceUpdate where
  id : Option String := none
  name : Option String := none
  «type» : Option String := none
  url : Option String := none
  status : Option String := none
  lastUpdated : Option Nat := none
  config : Option (Option File) := none
deriving DecidableEq

/-- `Object.assign(source, updates, { lastUpdated: new Date() })`:
supplied fields overwrite, and the timestamp is always refreshed
(the third argument wins over any `lastUpdated` in `updates`). -/
def applyUpdate (s : DataSource) (u : SourceUpdate) (now : Nat) : DataSource :=
  { id := u.id.getD s.id, name := u.name.getD s.name,
    «type» := u.«type».getD s.«type», url := u.url.getD s.url,
    status := u.status.getD s.status, lastUpdated := now,
    config := u.config.getD s.config }

/-- `DataSourceManager.updateSource`. -/
def updateSource (st : ManagerState) (id : String) (u : SourceUpdate) (now : Nat) :
    Except String (ManagerState × Event) :=
  match lookupAssoc st.sources id with
  | none => Except.error ("Source not found: " ++ id)
  | some s =>
    let s2 := applyUpdate s u now
    Except.ok ({ st with sources := setAssoc st.sources id s2 }, Event.sourceUpdated s2)

/-- `DataSourceManager.removeSource`: deletes the source and its record
set. -/
def removeSource (st : ManagerState) (id : String) :
    Except String (ManagerState × Event) :=
  match lookupAssoc st.sources id with
  | none => Except.error ("Source not found: " ++ id)
  | some s =>
    Except.ok ({ sources := st.sources.filter (fun p => !(p.1 == id)),
                 data := st.data.filter (fun p => !(p.1 == id)) },
               Event.sourceRemoved s)

/-- `DataSourceManager.getSources`. -/
def getSources (st : ManagerState) : List DataSource := st.sources.map Prod.snd

/-- `DataSourceManager.getSource`. -/
def getSource (st : ManagerState) (id : String) : Option DataSource :=
  lookupAssoc st.sources id

/-- `DataSourceManager.getSourceData`: `this.data.get(id) || []` —
total, an unknown id yields the empty list. -/
def getSourceData (st : ManagerState) (id : String) : List Rec :=
  (lookupAssoc st.data id).getD []

/-- `DataSourceManager.getAllData`: the concatenation of every stored
record set in map insertion order. -/
def getAllData (st : ManagerState) : List Rec :=
  (st.data.map Prod.snd).flatten

/-! ## The Heuristic Analysis Engine (`AnalysisEngine`) -/

/-- One finding.  `type` ∈ {threat, pattern, anomaly, correlation},
`severity` ∈ {low, medium, high, critical}, both stored as the literal
strings the code uses. -/
structure AnalysisResult where
  id : String
  «type» : String
  title : String
  description : String
  severity : String
  confidence : ℚ
  timestamp : Nat
  evidence : List Rec
  recommendations : List String
deriving DecidableEq

/-- An analysis configuration. -/
structure AnalysisConfig where
  «type» : String
  timeRange : String := ""
  severityFilter : String := ""
deriving DecidableEq

/-- The engine's `Math.random` draws: `susp i` is the
`Math.random() < 0.1` draw for the record at index `i`, `conf01 i` the
`Math.random()` draw for that record's confidence. -/
structure Rand where
  susp : Nat → Bool
  conf01 : Nat → ℚ

/-- `AnalysisEngine.isKnownMaliciousIP`, applied to the raw field
value (`maliciousIPs.includes` uses strict equality). -/
def isKnownMaliciousIP (v : Option Val) : Bool :=
  ["203.0.113.45", "198.51.100.23", "192.0.2.100"].any
    (fun s => v == some (Val.str s))

/-- `AnalysisEngine.containsSuspiciousKeywords`. -/
def containsSuspiciousKeywords (v : Option Val) : Bool :=
  match v with
  | some (Val.str c) =>
    ["suspicious", "malicious", "attack", "breach", "vulnerability"].any
      (fun k => jsIncludes (jsToLower c) k)
  | _ => false

/-- `AnalysisEngine.isUnusualPort` on the raw field value
(`commonPorts.includes` uses strict equality, so a string-valued port is
never a common port). -/
def isUnusualPort (v : Option Val) : Bool :=
  !([80, 443, 22, 21, 25, 53, 110, 143, 993, 995].any
    (fun p => v == some (Val.int p)))

/-- `AnalysisEngine.isSuspiciousActivity`: the four guarded rules, then
the 10% random draw (the `randomFlag` oracle). -/
def isSuspiciousActivity (randomFlag : Bool) (item : Rec) : Bool :=
  if truthy (field item "sourceIP") && isKnownMaliciousIP (field item "sourceIP") then true
  else if truthy (field item "content") && containsSuspiciousKeywords (field item "content") then true
  else if truthy (field item "port") && isUnusualPort (field item "port") then true
  else if field item "type" == some (Val.str "malware") then true
  else randomFlag

/-- `AnalysisEngine.calculateThreatSeverity`. -/
def calculateThreatSeverity (item : Rec) : String :=
  if field item "type" == some (Val.str "malware") || field item "severity" == some (Val.str "high") then "critical"
  else if field item "status" == some (Val.str "blocked") || field item "severity" == some (Val.str "medium") then "high"
  else if truthy (field item "port") && isUnusualPort (field item "port") then "medium"
  else "low"

/-- `AnalysisEngine.generateThreatDescription`. -/
def generateThreatDescription (item : Rec) : String :=
  if truthy (field item "sourceIP") then
    "Suspicious network activity from " ++ valToString ((field item "sourceIP").getD (Val.str ""))
      ++ " targeting "
      ++ (if truthy (field item "destIP") then valToString ((field item "destIP").getD (Val.str ""))
          else "internal systems")
  else if truthy (field item "content") then
    "Suspicious content detected: "
      ++ jsTake (valToString ((field item "content").getD (Val.str ""))) 100 ++ "..."
  else if field item "type" == some (Val.str "malware") then
    "Malware detected: "
      ++ (if truthy (field item "name") then valToString ((field item "name").getD (Val.str ""))
          else "Unknown threat")
  else "Suspicious activity detected in data source"

/-- `AnalysisEngine.generateThreatRecommendations`. -/
def generateThreatRecommendations (item : Rec) : List String :=
  (if truthy (field item "sourceIP") then
    ["Block IP address " ++ valToString ((field item "sourceIP").getD (Val.str "")),
     "Monitor network traffic for similar patterns"]
   else [])
  ++ (if field item "type" == some (Val.str "malware") then
    ["Run full system scan", "Update antivirus definitions", "Isolate affected systems"]
   else [])
  ++ ["Investigate further", "Document incident"]

/-- `AnalysisEngine.generateSampleThreats`: the three canned sample
findings. -/
def generateSampleThreats (now : Nat) : List AnalysisResult :=
  [{ id := "threat-sample-1", «type» := "threat",
     title := "Malicious IP Activity",
     description := "Multiple connection attempts from known malicious IP address",
     severity := "high", confidence := 0.92, timestamp := now,
     evidence := [[("sourceIP", Val.str "203.0.113.45"), ("attempts", Val.int 15)]],
     recommendations := ["Block IP address", "Monitor for similar activity"] },
   { id := "threat-sample-2", «type» := "threat",
     title := "Suspicious File Hash",
     description := "File with known malicious hash detected",
     severity := "critical", confidence := 0.98, timestamp := now,
     evidence := [[("hash", Val.str "abc123def456"), ("filename", Val.str "suspicious.exe")]],
     recommendations := ["Quarantine file", "Run full system scan"] },
   { id := "threat-sample-3", «type» := "threat",
     title := "Unusual Port Activity",
     description := "Unexpected traffic on non-standard port",
     severity := "medium", confidence := 0.75, timestamp := now,
     evidence := [[("port", Val.int 8888), ("protocol", Val.str "TCP")]],
     recommendations := ["Investigate port usage", "Review firewall rules"] }]

/-- `AnalysisEngine.runThreatDetection`: one finding per suspicious
record (index-stamped id, confidence `0.7 + Math.random() * 0.3`), and
the canned samples when no record matched. -/
def runThreatDetection (rand : Rand) (now : Nat) (data : List Rec) : List AnalysisResult :=
  let results := (data.enum.filter (fun pr => isSuspiciousActivity (rand.susp pr.1) pr.2)).map
    (fun pr =>
      { id := "threat-" ++ toString pr.1, «type» := "threat",
        title := "Suspicious Activity Detected",
        description := generateThreatDescription pr.2,
        severity := calculateThreatSeverity pr.2,
        confidence := 0.7 + rand.conf01 pr.1 * 0.3,
        timestamp := now, evidence := [pr.2],
        recommendations := generateThreatRecommendations pr.2 })
  if results.length = 0 then generateSampleThreats now else results

/-- One canned finding body used by the demonstrative strategies. -/
structure CannedFinding where
  «type» : String
  description : String
  severity : String
  confidence : ℚ
  evidence : List Rec
  recommendations : List String
deriving DecidableEq

/-- `AnalysisEngine.identifyPatterns` (`slice(0,3)` and `slice(1,4)` of
the input are the evidence). -/
def identifyPatterns (data : List Rec) : List CannedFinding :=
  [{ «type» := "Repeated Access Attempts",
     description := "Multiple failed login attempts from same source",
     severity := "medium", confidence := 0.85,
     evidence := data.take 3,
     recommendations := ["Implement rate limiting", "Monitor source IP"] },
   { «type» := "Time-based Pattern",
     description := "Unusual activity during off-hours",
     severity := "low", confidence := 0.72,
     evidence := (data.drop 1).take 3,
     recommendations := ["Review access policies", "Implement time-based restrictions"] }]

/-- `AnalysisEngine.runPatternAnalysis`. -/
def runPatternAnalysis (now : Nat) (data : List Rec) : List AnalysisResult :=
  (identifyPatterns data).enum.map (fun pr =>
    { id := "pattern-" ++ toString pr.1, «type» := "pattern",
      title := "Pattern Identified: " ++ pr.2.«type»,
      description := pr.2.description, severity := pr.2.severity,
      confidence := pr.2.confidence, timestamp := now,
      evidence := pr.2.evidence, recommendations := pr.2.recommendations })

/-- `AnalysisEngine.detectAnomalies` (`slice(0,2)` and `slice(2,5)`). -/
def detectAnomalies (data : List Rec) : List CannedFinding :=
  [{ «type» := "Traffic Volume Spike",
     description := "Unusual increase in network traffic volume",
     severity := "medium", confidence := 0.78,
     evidence := data.take 2,
     recommendations := ["Investigate traffic source", "Check for DDoS attack"] },
   { «type» := "Unusual User Behavior",
     description := "User accessing resources outside normal pattern",
     severity := "low", confidence := 0.65,
     evidence := (data.drop 2).take 3,
     recommendations := ["Verify user identity", "Review access logs"] }]

/-- `AnalysisEngine.runAnomalyDetection`. -/
def runAnomalyDetection (now : Nat) (data : List Rec) : List AnalysisResult :=
  (detectAnomalies data).enum.map (fun pr =>
    { id := "anomaly-" ++ toString pr.1, «type» := "anomaly",
      title := "Anomaly Detected: " ++ pr.2.«type»,
      description := pr.2.description, severity := pr.2.severity,
      confidence := pr.2.confidence, timestamp := now,
      evidence := pr.2.evidence, recommendations := pr.2.recommendations })

/-- `AnalysisEngine.findCorrelations` (`slice(0,4)`). -/
def findCorrelations (data : List Rec) : List CannedFinding :=
  [{ «type» := "Multi-source Threat",
     description := "Related threats detected across multiple data sources",
     severity := "high", confidence := 0.88,
     evidence := data.take 4,
     recommendations := ["Coordinate response", "Check all related systems"] }]

/-- `AnalysisEngine.runCorrelationAnalysis`. -/
def runCorrelationAnalysis (now : Nat) (data : List Rec) : List AnalysisResult :=
  (findCorrelations data).enum.map (fun pr =>
    { id := "correlation-" ++ toString pr.1, «type» := "correlation",
      title := "Correlation Found: " ++ pr.2.«type»,
      description := pr.2.description, severity := pr.2.severity,
      confidence := pr.2.confidence, timestamp := now,
      evidence := pr.2.evidence, recommendations := pr.2.recommendations })

/-- The strategy dispatch `switch` inside `runAnalysis`, before the
severity post-filter. -/
def strategyResults (rand : Rand) (now : Nat) (data : List Rec) (config : AnalysisConfig) :
    Except String (List AnalysisResult) :=
  if config.«type» = "threat-detection" then Except.ok (runThreatDetection rand now data)
  else if config.«type» = "pattern-analysis" then Except.ok (runPatternAnalysis now data)
  else if config.«type» = "anomaly-detection" then Except.ok (runAnomalyDetection now data)
  else if config.«type» = "correlation-analysis" then Except.ok (runCorrelationAnalysis now data)
  else Except.error ("Unknown analysis type: " ++ config.«type»)

/-- The post-filter
`config.severityFilter && config.severityFilter !== 'all' ?
results.filter(r => r.severity === config.severityFilter) : results`
(an empty filter string is falsy: no filtering). -/
def severityPostFilter (filterVal : String) (results : List AnalysisResult) :
    List AnalysisResult :=
  if strTruthy filterVal && !(filterVal == "all") then
    results.filter (fun r => r.severity == filterVal)
  else results

/-- `AnalysisEngine.runAnalysis`, value part: strategy dispatch followed
by the severity post-filter; an unknown strategy type re-raises.  (The
artificial 1–3 s delay and the `threatCount` / `latest results` updates
are timing and private state, not part of the returned value.) -/
def runAnalysis (rand : Rand) (now : Nat) (data : List Rec) (config : AnalysisConfig) :
    Except String (List AnalysisResult) :=
  match strategyResults rand now data config with
  | Except.error e => Except.error e
  | Except.ok results => Except.ok (severityPostFilter config.severityFilter results)

/-! ## The Report Compiler (`ReportGenerator`) -/

/-- The metadata block of a report. -/
structure ReportMetadata where
  analysisResultsCount : Nat
  dataSourcesCount : Nat
  threatLevel : String
deriving DecidableEq

/-- One compiled report. -/
structure Report where
  id : String
  title : String
  «type» : String
  format : String
  content : String
  generatedAt : Nat
  downloadUrl : Option String
  metadata : ReportMetadata
deriving DecidableEq

/-- A report configuration (`title = ""` models an absent title, which
is falsy in `config.title || ...`). -/
structure ReportConfig where
  «type» : String
  format : String
  title : String := ""
deriving DecidableEq

/-- Platform capabilities of the compiler with no repository logic:
number/date formatting (`toFixed(1)`, `toLocaleString`) and the three
blob encoders (jsPDF painting, the HTML shell with the regex
Markdown-to-HTML transform, `JSON.stringify`, each followed by
`URL.createObjectURL`). -/
structure ReportPlatform where
  toFixed1 : ℚ → String
  fmtDate : Nat → String
  pdfURL : Report → String
  htmlURL : Report → String
  jsonURL : Report → List AnalysisResult → List Rec → String

/-- `ReportGenerator.calculateOverallThreatLevel`. -/
def calculateOverallThreatLevel (results : List AnalysisResult) : String :=
  let criticalCount := (results.filter (fun r => r.severity == "critical")).length
  let highCount := (results.filter (fun r => r.severity == "high")).length
  let mediumCount := (results.filter (fun r => r.severity == "medium")).length
  if criticalCount > 0 then "critical"
  else if highCount > 2 then "high"
  else if highCount > 0 ∨ mediumCount > 3 then "medium"
  else "low"

/-- `Set.add` on a JS `Set` kept as an insertion-ordered list. -/
def addToSet (xs : List Val) (v : Val) : List Val :=
  if v ∈ xs then xs else xs ++ [v]

/-- `ReportGenerator.getUniqueDataSources`: collect each record's
truthy `source` and `sourceIP` values into a set. -/
def getUniqueDataSources (data : List Rec) : List Val :=
  data.foldl (fun sources item =>
    let sources1 :=
      if truthy (field item "source") then addToSet sources ((field item "source").getD (Val.str ""))
      else sources
    if truthy (field item "sourceIP") then addToSet sources1 ((field item "sourceIP").getD (Val.str ""))
    else sources1) []

/-- Insertion-ordered deduplication (a JS `Set` built by pushes). -/
def dedupStrings (xs : List String) : List String :=
  xs.foldl (fun acc r => if r ∈ acc then acc else acc ++ [r]) []

/-- `xs.map((x, i) => `${i+1}. ${x}`).join('\n')`. -/
def numbered (xs : List String) : String :=
  String.intercalate "\n" (xs.enum.map (fun pr => toString (pr.1 + 1) ++ ". " ++ pr.2))

/-- All recommendation strings of a finding list, in order. -/
def allRecommendations (results : List AnalysisResult) : List String :=
  (results.map (fun r => r.recommendations)).flatten

/-- `ReportGenerator.generateRiskAssessment`. -/
def generateRiskAssessment (results : List AnalysisResult) : String :=
  let highRiskItems := results.filter (fun r => r.severity == "critical" || r.severity == "high")
  if highRiskItems.length = 0 then
    "Current risk level is LOW. No critical threats identified."
  else
    "Current risk level is ELEVATED. " ++ toString highRiskItems.length
      ++ " high-priority threats require immediate attention."

/-- `ReportGenerator.generateExecutiveRecommendations`. -/
def generateExecutiveRecommendations (results : List AnalysisResult) : String :=
  numbered ((dedupStrings (allRecommendations results)).take 5)

/-- `ReportGenerator.generateConclusion`. -/
def generateConclusion (results : List AnalysisResult) : String :=
  "Based on the analysis of " ++ toString results.length
    ++ " findings, the organization should maintain " ++ calculateOverallThreatLevel results
    ++ " alert status and implement the recommended security measures."

/-- `ReportGenerator.generateExecutiveSummary`. -/
def generateExecutiveSummary (results : List AnalysisResult) (data : List Rec) : String :=
  let threatLevel := calculateOverallThreatLevel results
  let criticalThreats := (results.filter (fun r => r.severity == "critical")).length
  let highThreats := (results.filter (fun r => r.severity == "high")).length
  jsTrim ("\n# Executive Summary\n\n## Overview\nThis intelligence report provides a comprehensive analysis of security threats and patterns identified from "
    ++ toString (getUniqueDataSources data).length
    ++ " data sources over the analysis period.\n\n## Key Findings\n- **Overall Threat Level**: "
    ++ jsToUpper threatLevel
    ++ "\n- **Critical Threats**: " ++ toString criticalThreats
    ++ "\n- **High Priority Threats**: " ++ toString highThreats
    ++ "\n- **Total Findings**: " ++ toString results.length
    ++ "\n\n## Risk Assessment\n" ++ generateRiskAssessment results
    ++ "\n\n## Recommendations\n" ++ generateExecutiveRecommendations results
    ++ "\n\n## Conclusion\n" ++ generateConclusion results
    ++ "\n    ")

/-- `ReportGenerator.generateDataSourcesSummary`. -/
def generateDataSourcesSummary (data : List Rec) : String :=
  numbered ((getUniqueDataSources data).map valToString)

/-- `ReportGenerator.generateDetailedFindings` (top 10 findings). -/
def generateDetailedFindings (p : ReportPlatform) (results : List AnalysisResult) : String :=
  String.intercalate "\n" ((results.take 10).enum.map (fun pr =>
    "\n### Finding " ++ toString (pr.1 + 1) ++ ": " ++ pr.2.title
      ++ "\n- **Severity**: " ++ jsToUpper pr.2.severity
      ++ "\n- **Confidence**: " ++ p.toFixed1 (pr.2.confidence * 100)
      ++ "%\n- **Description**: " ++ pr.2.description ++ "\n    "))

/-- The indicator strings one evidence record contributes. -/
def evidenceIndicators (e : Rec) : List String :=
  (if truthy (field e "sourceIP") then ["IP: " ++ valToString ((field e "sourceIP").getD (Val.str ""))] else [])
  ++ (if truthy (field e "hash") then ["Hash: " ++ valToString ((field e "hash").getD (Val.str ""))] else [])
  ++ (if truthy (field e "domain") then ["Domain: " ++ valToString ((field e "domain").getD (Val.str ""))] else [])

/-- `ReportGenerator.generateTechnicalIndicators` (top 10, dedup). -/
def generateTechnicalIndicators (results : List AnalysisResult) : String :=
  let indicators := (results.map (fun r => (r.evidence.map evidenceIndicators).flatten)).flatten
  numbered ((dedupStrings indicators).take 10)

/-- `ReportGenerator.generateMitigationStrategies` (top 8, dedup). -/
def generateMitigationStrategies (results : List AnalysisResult) : String :=
  numbered ((dedupStrings (allRecommendations results)).take 8)

/-- `ReportGenerator.generateTechnicalAnalysis`. -/
def generateTechnicalAnalysis (p : ReportPlatform) (results : List AnalysisResult)
    (data : List Rec) : String :=
  jsTrim ("\n# Technical Analysis Report\n\n## Methodology\nThis analysis employed multiple detection techniques including:\n- Threat detection algorithms\n- Pattern analysis\n- Anomaly detection\n- Correlation analysis\n\n## Data Sources\n"
    ++ generateDataSourcesSummary data
    ++ "\n\n## Detailed Findings\n" ++ generateDetailedFindings p results
    ++ "\n\n## Technical Indicators\n" ++ generateTechnicalIndicators results
    ++ "\n\n## Mitigation Strategies\n" ++ generateMitigationStrategies results
    ++ "\n    ")

/-- Insertion-ordered counting map update
(`m.set(k, (m.get(k) || 0) + 1)`). -/
def bumpCount (m : List (String × Nat)) (k : String) : List (String × Nat) :=
  if m.any (fun p => p.1 == k) then m.map (fun p => if p.1 == k then (k, p.2 + 1) else p)
  else m ++ [(k, 1)]

/-- `ReportGenerator.generateThreatCategories`
(`threat.type || 'unknown'`). -/
def generateThreatCategories (threats : List AnalysisResult) : String :=
  let categories := threats.foldl
    (fun m t => bumpCount m (if strTruthy t.«type» then t.«type» else "unknown")) []
  String.intercalate "\n" (categories.map (fun p => "- " ++ p.1 ++ ": " ++ toString p.2))

/-- `ReportGenerator.generateSeverityDistribution`. -/
def generateSeverityDistribution (threats : List AnalysisResult) : String :=
  let distribution := threats.foldl (fun m t => bumpCount m t.severity) []
  String.intercalate "\n" (distribution.map (fun p => "- " ++ p.1 ++ ": " ++ toString p.2))

/-- `ReportGenerator.generateAttackVectors`. -/
def generateAttackVectors (threats : List AnalysisResult) : String :=
  jsTrim ("\n- Network-based attacks: "
    ++ toString (threats.filter (fun t => jsIncludes t.description "network")).length
    ++ "\n- Malware infections: "
    ++ toString (threats.filter (fun t => jsIncludes t.description "malware")).length
    ++ "\n- Suspicious activities: "
    ++ toString (threats.filter (fun t => jsIncludes t.description "suspicious")).length
    ++ "\n    ")

/-- `ReportGenerator.generateThreatActorAnalysis` (constant text). -/
def generateThreatActorAnalysis : String :=
  "Analysis suggests multiple threat actors with varying sophistication levels. Further investigation recommended."

/-- `ReportGenerator.generateDefensiveRecommendations` (top 6, dedup). -/
def generateDefensiveRecommendations (threats : List AnalysisResult) : String :=
  numbered ((dedupStrings (allRecommendations threats)).take 6)

/-- `ReportGenerator.generateThreatAssessment`. -/
def generateThreatAssessment (results : List AnalysisResult) (_data : List Rec) : String :=
  let threats := results.filter (fun r => r.«type» == "threat")
  jsTrim ("\n# Threat Assessment Report\n\n## Threat Landscape Overview\n"
    ++ toString threats.length
    ++ " threats have been identified and analyzed.\n\n## Threat Categories\n"
    ++ generateThreatCategories threats
    ++ "\n\n## Severity Distribution\n" ++ generateSeverityDistribution threats
    ++ "\n\n## Attack Vectors\n" ++ generateAttackVectors threats
    ++ "\n\n## Threat Actor Analysis\n" ++ generateThreatActorAnalysis
    ++ "\n\n## Defensive Recommendations\n" ++ generateDefensiveRecommendations threats
    ++ "\n    ")

/-- `ReportGenerator.generateTimeline`. -/
def generateTimeline (p : ReportPlatform) (incidents : List AnalysisResult) : String :=
  String.intercalate "\n" (incidents.map (fun i => "- " ++ p.fmtDate i.timestamp ++ ": " ++ i.title))

/-- `ReportGenerator.generateImpactAssessment`. -/
def generateImpactAssessment (incidents : List AnalysisResult) : String :=
  toString (incidents.filter (fun i => i.severity == "critical")).length
    ++ " critical incidents with potential for significant business impact."

/-- `ReportGenerator.generateResponseActions` (top 5, dedup). -/
def generateResponseActions (incidents : List AnalysisResult) : String :=
  numbered ((dedupStrings (allRecommendations incidents)).take 5)

/-- `ReportGenerator.generateLessonsLearned` (constant text). -/
def generateLessonsLearned : String :=
  "Incidents highlight the need for improved monitoring and faster response times."

/-- `ReportGenerator.generateNextSteps` (constant text). -/
def generateNextSteps : String :=
  jsTrim "\n1. Implement immediate containment measures\n2. Conduct thorough investigation\n3. Update security policies\n4. Enhance monitoring capabilities\n5. Schedule follow-up assessment\n    "

/-- `ReportGenerator.generateIncidentReport` (findings filtered to
critical/high). -/
def generateIncidentReport (p : ReportPlatform) (results : List AnalysisResult)
    (_data : List Rec) : String :=
  let incidents := results.filter (fun r => r.severity == "critical" || r.severity == "high")
  jsTrim ("\n# Incident Report\n\n## Incident Summary\n"
    ++ toString incidents.length
    ++ " high-priority incidents requiring immediate attention.\n\n## Timeline of Events\n"
    ++ generateTimeline p incidents
    ++ "\n\n## Impact Assessment\n" ++ generateImpactAssessment incidents
    ++ "\n\n## Response Actions\n" ++ generateResponseActions incidents
    ++ "\n\n## Lessons Learned\n" ++ generateLessonsLearned
    ++ "\n\n## Next Steps\n" ++ generateNextSteps
    ++ "\n    ")

/-- The content-stage `switch` of `generateReport`: select the narrative
template by report type, or throw `Unknown report type`. -/
def reportContent (p : ReportPlatform) (t : String) (results : List AnalysisResult)
    (data : List Rec) : Except String String :=
  if t = "executive-summary" then Except.ok (generateExecutiveSummary results data)
  else if t = "technical-analysis" then Except.ok (generateTechnicalAnalysis p results data)
  else if t = "threat-assessment" then Except.ok (generateThreatAssessment results data)
  else if t = "incident-report" then Except.ok (generateIncidentReport p results data)
  else Except.error ("Unknown report type: " ++ t)

/-- The encoding-stage `switch` of `generateReport`: select the blob
encoder by format, or throw `Unknown report format`. -/
def encodeReport (p : ReportPlatform) (r : Report) (results : List AnalysisResult)
    (data : List Rec) : Except String String :=
  if r.format = "pdf" then Except.ok (p.pdfURL r)
  else if r.format = "html" then Except.ok (p.htmlURL r)
  else if r.format = "json" then Except.ok (p.jsonURL r results data)
  else Except.error ("Unknown report format: " ++ r.format)

/-- `ReportGenerator.generateReport`: build the report with its metadata
block, run the content stage then the encoding stage, append to the
history on success; any stage error leaves the history untouched and is
re-raised.  The generated id and clock instant are passed in. -/
def generateReport (p : ReportPlatform) (reports : List Report) (newId : String) (now : Nat)
    (config : ReportConfig) (analysisResults : List AnalysisResult) (data : List Rec) :
    List Report × Except String Report :=
  let report0 : Report :=
    { id := newId,
      title := if strTruthy config.title then config.title else config.«type» ++ " Report",
      «type» := config.«type», format := config.format,
      content := "", generatedAt := now, downloadUrl := none,
      metadata :=
        { analysisResultsCount := analysisResults.length,
          dataSourcesCount := (getUniqueDataSources data).length,
          threatLevel := calculateOverallThreatLevel analysisResults } }
  match reportContent p config.«type» analysisResults data with
  | Except.error e => (reports, Except.error e)
  | Except.ok content =>
    let report1 := { report0 with content := content }
    match encodeReport p report1 analysisResults data with
    | Except.error e => (reports, Except.error e)
    | Except.ok url =>
      let report2 := { report1 with downloadUrl := some url }
      (reports ++ [report2], Except.ok report2)

/-! ## Specification-side definitions (for refinement statements) -/

/-- Number of findings with the given severity. -/
def sevCount (rs : List AnalysisResult) (sev : String) : Nat :=
  rs.countP (fun r => r.severity = sev)

/-- The overall threat level as the specification words it: critical if
at least one critical finding; else high if strictly more than 2 high
findings; else medium if at least 1 high or strictly more than 3 medium
findings; else low. -/
def threatLevelSpec (rs : List AnalysisResult) : String :=
  if 1 ≤ sevCount rs "critical" then "critical"
  else if 2 < sevCount rs "high" then "high"
  else if 1 ≤ sevCount rs "high" ∨ 3 < sevCount rs "medium" then "medium"
  else "low"

/-- A value row padded to the header count with empty strings (missing
trailing fields become `""`, extra values are dropped by `zip`). -/
def padRight (values : List String) (n : Nat) : List String :=
  values ++ List.replicate (n - values.length) ""

/-- The CSV record as the specification words it: the header names
zipped positionally with the padded value row. -/
def zipRecord (headers values : List String) : Rec :=
  (headers.zip (padRight values headers.length)).map (fun p => (p.1, Val.str p.2))

/-- The zipped record built from index `i` on (the loop invariant form
of `buildRow`). -/
def zipFrom (headers values : List String) (i : Nat) : Rec :=
  match headers with
  | [] => []
  | h :: t => (h, Val.str (values.getD i "")) :: zipFrom t values (i + 1)

/-- The registry invariant around source identity: registered keys are
pairwise distinct and every registered source object holds its own
registration key as its id. -/
def goodState (st : ManagerState) : Prop :=
  (st.sources.map Prod.fst).Nodup ∧ ∀ pr ∈ st.sources, pr.2.id = pr.1

/-! ## Concrete platform instances and inputs used by witnesses -/

/-- A parse platform whose JSON and XML parsers reject everything; the
CSV and text branches do not consult it. -/
def demoParse : ParsePlatform :=
  { jsonParse := fun _ => none, xmlParse := fun _ => none,
    isoNow := "1970-01-01T00:00:00.000Z" }

/-- A report platform with fixed formatting and blob handles. -/
def demoReport : ReportPlatform :=
  { toFixed1 := fun _ => "0.0", fmtDate := fun _ => "",
    pdfURL := fun _ => "blob:pdf", htmlURL := fun _ => "blob:html",
    jsonURL := fun _ _ _ => "blob:json" }

/-- A randomness oracle that never fires the 10% branch. -/
def rand0 : Rand := { susp := fun _ => false, conf01 := fun _ => 0 }

/-- A finding with the given severity and defaulted remaining fields. -/
def mkFinding (sev : String) : AnalysisResult :=
  { id := "", «type» := "", title := "", description := "",
    severity := sev, confidence := 0, timestamp := 0,
    evidence := [], recommendations := [] }

/-! # Theorems -/

/-! ## General lemmas -/

theorem filterLength_eq_sevCount (rs : List AnalysisResult) (sev : String) :
    (rs.filter (fun r => r.severity == sev)).length = sevCount rs sev := by
  rw [sevCount, List.countP_eq_length_filter,
    List.filter_congr (fun r _ => show (r.severity == sev) = decide (r.severity = sev) by
      by_cases h : r.severity = sev <;> simp [h])]

theorem calc_threat_level_eq_spec (rs : List AnalysisResult) :
    calculateOverallThreatLevel rs = threatLevelSpec rs := by
  simp only [calculateOverallThreatLevel, threatLevelSpec,
    filterLength_eq_sevCount]
  split_ifs <;> first | rfl | omega

/-! ## C1: the overall threat-level decision table -/

/-- C1.  The Report Compiler's overall threat level agrees with the
specification's ordered decision table on every finding list, and in
particular: any list containing a critical finding is `critical`; a list
with 3 high and 0 critical findings is `high`; 1 high and 0 critical is
`medium`; 4 medium and 0 high/critical is `medium`; the empty list is
`low`. -/
theorem threat_level_decision_table :
    (∀ rs : List AnalysisResult, calculateOverallThreatLevel rs = threatLevelSpec rs) ∧
    (∀ (rs : List AnalysisResult) (f : AnalysisResult), f ∈ rs → f.severity = "critical" →
      calculateOverallThreatLevel rs = "critical") ∧
    (∀ rs : List AnalysisResult, sevCount rs "critical" = 0 → sevCount rs "high" = 3 →
      calculateOverallThreatLevel rs = "high") ∧
    (∀ rs : List AnalysisResult, sevCount rs "critical" = 0 → sevCount rs "high" = 1 →
      calculateOverallThreatLevel rs = "medium") ∧
    (∀ rs : List AnalysisResult, sevCount rs "critical" = 0 → sevCount rs "high" = 0 →
      sevCount rs "medium" = 4 → calculateOverallThreatLevel rs = "medium") ∧
    calculateOverallThreatLevel [] = "low" := by
  refine ⟨calc_threat_level_eq_spec, ?_, ?_, ?_, ?_, rfl⟩
  · intro rs f hf hsev
    rw [calc_threat_level_eq_spec, threatLevelSpec, if_pos]
    have : 0 < sevCount rs "critical" :=
      List.countP_pos_iff.mpr ⟨f, hf, by simp [hsev]⟩
    omega
  · intro rs hc hh
    simp [calc_threat_level_eq_spec, threatLevelSpec, hc, hh]
  · intro rs hc hh
    simp [calc_threat_level_eq_spec, threatLevelSpec, hc, hh]
  · intro rs hc hh hm
    simp [calc_threat_level_eq_spec, threatLevelSpec, hc, hh, hm]

/-- Witness for C1: the decision table evaluated at the five concrete
finding lists of the claim. -/
theorem threat_level_decision_table_witness :
    calculateOverallThreatLevel [mkFinding "critical", mkFinding "low"] = "critical" ∧
    calculateOverallThreatLevel [mkFinding "high", mkFinding "high", mkFinding "high"] = "high" ∧
    calculateOverallThreatLevel [mkFinding "high"] = "medium" ∧
    calculateOverallThreatLevel
      [mkFinding "medium", mkFinding "medium", mkFinding "medium", mkFinding "medium"] = "medium" := by
  have h := threat_level_decision_table
  exact ⟨h.2.1 _ (mkFinding "critical") (by decide) rfl,
    h.2.2.1 _ (by decide) (by decide),
    h.2.2.2.1 _ (by decide) (by decide),
    h.2.2.2.2.1 _ (by decide) (by decide) (by decide)⟩

/-! ## C2: CSV normalization -/

theorem getD_succ_tail (vs : List String) (i : Nat) :
    vs.getD (i + 1) "" = vs.tail.getD i "" := by
  cases vs <;> simp [List.getD]

theorem zipFrom_succ (hs : List String) : ∀ (vs : List String) (i : Nat),
    zipFrom hs vs (i + 1) = zipFrom hs vs.tail i := by
  induction hs with
  | nil => intro vs i; rfl
  | cons h t ih => intro vs i; simp only [zipFrom, getD_succ_tail, ih]

theorem zipFrom_zero (hs : List String) : ∀ vs : List String,
    zipFrom hs vs 0 = zipRecord hs vs := by
  induction hs with
  | nil => intro vs; simp [zipFrom, zipRecord]
  | cons h t ih =>
    intro vs
    simp only [zipFrom, zipFrom_succ, ih]
    cases vs with
    | nil => simp [zipRecord, padRight, List.replicate_succ]
    | cons v vs2 =>
      simp [zipRecord, padRight, Nat.succ_sub_succ]

theorem hasKey_append_single (row : Rec) (h h2 : String) (v : Val) :
    hasKey (row ++ [(h, v)]) h2 = (hasKey row h2 || (h == h2)) := by
  simp [hasKey, List.any_append]

theorem buildRowAux_invariant (hs : List String) : ∀ (row : Rec) (vs : List String) (i : Nat),
    hs.Nodup → (∀ h ∈ hs, hasKey row h = false) →
    buildRowAux row hs vs i = row ++ zipFrom hs vs i := by
  induction hs with
  | nil => intro row vs i _ _; simp [buildRowAux, zipFrom]
  | cons h t ih =>
    intro row vs i hnd hfresh
    have hne : hasKey row h = false := hfresh h (by simp)
    rw [buildRowAux, objSet, if_neg (by simp [hne])]
    rw [ih (row ++ [(h, Val.str (vs.getD i ""))]) vs (i + 1) (List.Nodup.of_cons hnd) ?_]
    · simp [zipFrom]
    · intro h2 hh2
      rw [hasKey_append_single, hfresh h2 (List.mem_cons_of_mem _ hh2)]
      have : h ≠ h2 := fun e => (List.nodup_cons.mp hnd).1 (e ▸ hh2)
      simp [this]

theorem buildRow_eq_zipRecord (hs vs : List String) (hnd : hs.Nodup) :
    buildRow hs vs = zipRecord hs vs := by
  rw [buildRow, buildRowAux_invariant hs [] vs 0 hnd (fun _ _ => rfl),
    List.nil_append, zipFrom_zero]

/-- C2 (amended: the trimmed header names must be pairwise distinct; a
duplicated header keeps a single field holding the last zipped value).
`parseCSV` on a text with at least 2 non-blank lines returns one record
per data line in line order, each record the headers zipped positionally
with that line's trimmed comma-split values, short rows padded with
empty strings and extra values dropped; fewer than 2 non-blank lines
fail with the `InsufficientRows` error. -/
theorem parseCSV_normalizes (text : String) (hnd : (csvHeaders text).Nodup) :
    parseCSV text =
      if 2 ≤ (csvLines text).length then
        Except.ok (((csvLines text).drop 1).map
          (fun line => zipRecord (csvHeaders text) ((jsSplit ',' line).map jsTrim)))
      else Except.error "CSV must have header and data rows" := by
  rw [parseCSV]
  by_cases h : (csvLines text).length < 2
  · rw [if_pos h, if_neg (by omega)]
  · rw [if_neg h, if_pos (by omega)]
    refine congrArg Except.ok ?_
    exact List.map_congr_left (fun line _ => buildRow_eq_zipRecord _ _ hnd)

/-- Witness for C2: the amended statement evaluated on a 2-row CSV with
a short row. -/
theorem parseCSV_normalizes_witness :
    parseCSV "name,value\na,1\nb" =
      if 2 ≤ (csvLines "name,value\na,1\nb").length then
        Except.ok (((csvLines "name,value\na,1\nb").drop 1).map
          (fun line => zipRecord (csvHeaders "name,value\na,1\nb")
            ((jsSplit ',' line).map jsTrim)))
      else Except.error "CSV must have header and data rows" :=
  parseCSV_normalizes "name,value\na,1\nb" (by decide)

/-- Counterexample for C2 as stated: on the duplicated header row
`a,a` the code's record keeps one `a` field holding the last value,
whereas the claimed positional zip of headers and values would give two
`a` fields with both values. -/
theorem parseCSV_dup_header_cex :
    parseCSV "a,a\n1,2" = Except.ok [[("a", Val.str "2")]] ∧
    parseCSV "a,a\n1,2" ≠
      Except.ok [zipRecord (csvHeaders "a,a\n1,2") ((jsSplit ',' "1,2").map jsTrim)] := by
  exact ⟨by decide, by decide⟩

/-! ## Association-map lemmas for the registry -/

theorem find_map_replace {α : Type} (k : String) (v : α) (m : List (String × α))
    (h : m.any (fun p => p.1 == k) = true) :
    (m.map (fun p => if p.1 == k then (k, v) else p)).find? (fun p => p.1 == k) =
      some (k, v) := by
  induction m with
  | nil => simp at h
  | cons a m ih =>
    cases ha : (a.1 == k) with
    | true =>
      rw [List.map_cons, if_pos ha, List.find?_cons_of_pos _ (by simp)]
    | false =>
      have hm : m.any (fun p => p.1 == k) = true := by
        simpa [List.any_cons, ha] using h
      rw [List.map_cons, if_neg (by simp [ha]),
        List.find?_cons_of_neg _ (by simp [ha]), ih hm]

theorem find_append_of_fresh {α : Type} (k : String) (v : α) (m : List (String × α))
    (h : m.any (fun p => p.1 == k) = false) :
    (m ++ [(k, v)]).find? (fun p => p.1 == k) = some (k, v) := by
  induction m with
  | nil => simp [List.find?]
  | cons a m ih =>
    have ha : (a.1 == k) = false := by
      cases hx : (a.1 == k) with
      | true => rw [List.any_cons, hx] at h; simp at h
      | false => rfl
    have hm : m.any (fun p => p.1 == k) = false := by
      cases hx : m.any (fun p => p.1 == k) with
      | true => rw [List.any_cons, hx] at h; simp at h
      | false => rfl
    simp [List.find?, ha, ih hm]

theorem lookup_setAssoc_self {α : Type} (m : List (String × α)) (k : String) (v : α) :
    lookupAssoc (setAssoc m k v) k = some v := by
  rw [setAssoc]
  by_cases h : (m.any fun p => p.1 == k) = true
  · rw [if_pos h, lookupAssoc, find_map_replace k v m h]; rfl
  · have hf : (m.any fun p => p.1 == k) = false := by
      cases hx : (m.any fun p => p.1 == k) with
      | true => exact absurd hx h
      | false => rfl
    rw [if_neg h, lookupAssoc, find_append_of_fresh k v m hf]; rfl

theorem any_eq_false_of_lookup_none {α : Type} (m : List (String × α)) (k : String)
    (h : lookupAssoc m k = none) : m.any (fun p => p.1 == k) = false := by
  rw [lookupAssoc] at h
  cases hf : m.find? (fun p => p.1 == k) with
  | some a => rw [hf] at h; simp at h
  | none => exact List.any_eq_false.mpr (by simpa using List.find?_eq_none.mp hf)

theorem lookup_some_mem {α : Type} (m : List (String × α)) (k : String) (s : α)
    (h : lookupAssoc m k = some s) : (k, s) ∈ m := by
  rw [lookupAssoc] at h
  cases hf : m.find? (fun p => p.1 == k) with
  | none => rw [hf] at h; simp at h
  | some a =>
    rw [hf] at h
    have ha : (a.1 == k) = true := by
      have := List.find?_some hf
      simpa using this
    have hm := List.mem_of_find?_eq_some hf
    have h1 : a.1 = k := by simpa using ha
    have h2 : a.2 = s := by simpa using h
    have he : a = (k, s) := by
      cases a with
      | mk x y => simp only at h1 h2; rw [h1, h2]
    rwa [he] at hm

theorem keys_setAssoc_of_any {α : Type} (m : List (String × α)) (k : String) (v : α)
    (h : m.any (fun p => p.1 == k) = true) :
    (setAssoc m k v).map Prod.fst = m.map Prod.fst := by
  rw [setAssoc, if_pos h, List.map_map]
  refine List.map_congr_left (fun p _ => ?_)
  cases hp : (p.1 == k) with
  | true =>
    have : p.1 = k := by simpa using hp
    simp [Function.comp, hp, this]
  | false => simp [Function.comp, hp]

theorem keys_setAssoc_of_fresh {α : Type} (m : List (String × α)) (k : String) (v : α)
    (h : m.any (fun p => p.1 == k) = false) :
    (setAssoc m k v).map Prod.fst = m.map Prod.fst ++ [k] := by
  rw [setAssoc, if_neg (by simp [h]), List.map_append]; rfl

theorem mem_setAssoc {α : Type} (m : List (String × α)) (k : String) (v : α)
    (pr : String × α) (h : pr ∈ setAssoc m k v) : pr ∈ m ∨ pr = (k, v) := by
  rw [setAssoc] at h
  by_cases hm : m.any (fun p => p.1 == k) = true
  · rw [if_pos hm] at h
    obtain ⟨p, hp, he⟩ := List.mem_map.mp h
    cases hpk : (p.1 == k) with
    | true => right; rw [← he]; simp [hpk]
    | false => left; rw [← he]; simp [hpk]; exact hp
  · rw [if_neg hm] at h
    rcases List.mem_append.mp h with h1 | h2
    · left; exact h1
    · right; simpa using h2

/-! ## C3: addFileSource outcome on success and failure -/

/-- C3.  With a freshly generated id, `addFileSource` on a file whose
normalization fails leaves the source registered with status `error`,
its record set observably empty (`getSourceData` returns `[]`), and
re-raises the original parse error; on a file whose normalization
succeeds it stores the parsed records and leaves the source registered
with status `active`. -/
theorem addFileSource_outcomes (p : ParsePlatform) (st : ManagerState) (newId : String)
    (now : Nat) (file : File) (hfresh : lookupAssoc st.data newId = none) :
    (∀ e, parseFile p file = Except.error e →
      (addFileSource p st newId now file).result = Except.error e ∧
      lookupAssoc (addFileSource p st newId now file).state.sources newId =
        some (fileSource newId now file "error") ∧
      getSourceData (addFileSource p st newId now file).state newId = []) ∧
    (∀ recs, parseFile p file = Except.ok recs →
      (addFileSource p st newId now file).result =
        Except.ok (fileSource newId now file "active") ∧
      lookupAssoc (addFileSource p st newId now file).state.sources newId =
        some (fileSource newId now file "active") ∧
      getSourceData (addFileSource p st newId now file).state newId = recs) := by
  constructor
  · intro e he
    refine ⟨?_, ?_, ?_⟩
    · simp [addFileSource, he]
    · simp only [addFileSource, he]
      exact lookup_setAssoc_self _ _ _
    · simp only [addFileSource, he, getSourceData]
      simp [hfresh]
  · intro recs hr
    refine ⟨?_, ?_, ?_⟩
    · simp [addFileSource, hr]
    · simp only [addFileSource, hr]
      exact lookup_setAssoc_self _ _ _
    · simp only [addFileSource, hr, getSourceData]
      simp [lookup_setAssoc_self]

/-- Witness for C3: a header-only CSV file registers an error-status
source with an empty observable record set and rejects with the CSV
parse error. -/
theorem addFileSource_outcomes_witness :
    (addFileSource demoParse emptyManager "s2" 0 ⟨"x.csv", "onlyheader"⟩).result =
      Except.error "CSV must have header and data rows" ∧
    lookupAssoc (addFileSource demoParse emptyManager "s2" 0
        ⟨"x.csv", "onlyheader"⟩).state.sources "s2" =
      some (fileSource "s2" 0 ⟨"x.csv", "onlyheader"⟩ "error") ∧
    getSourceData (addFileSource demoParse emptyManager "s2" 0
        ⟨"x.csv", "onlyheader"⟩).state "s2" = [] :=
  (addFileSource_outcomes demoParse emptyManager "s2" 0 ⟨"x.csv", "onlyheader"⟩ rfl).1
    "CSV must have header and data rows" (by decide)

/-! ## C9: getSourceData is total and defaults to the empty list -/

/-- C9.  `getSourceData` never fails: it is a total function into record
lists, and whenever no record set is stored under an id — an
unregistered id, or a file source whose normalization failed with a
fresh id so that nothing was ever stored — it returns the empty list. -/
theorem getSourceData_total (st : ManagerState) (id : String) :
    (lookupAssoc st.data id = none → getSourceData st id = []) ∧
    (∀ (p : ParsePlatform) (now : Nat) (file : File) (e : String),
      parseFile p file = Except.error e → lookupAssoc st.data id = none →
      getSourceData (addFileSource p st id now file).state id = []) := by
  constructor
  · intro h; rw [getSourceData, h]; rfl
  · intro p now file e he h
    simp only [addFileSource, he, getSourceData]
    simp [h]

/-- Witness for C9: an unsupported-extension upload under a fresh id
still answers `[]` for that id. -/
theorem getSourceData_total_witness :
    getSourceData (addFileSource demoParse emptyManager "x1" 0 ⟨"evil.bin", "h"⟩).state "x1" = [] :=
  (getSourceData_total emptyManager "x1").2 demoParse 0 ⟨"evil.bin", "h"⟩
    "Unsupported file type: bin" (by decide) rfl

/-! ## C10: event discipline of addFileSource -/

/-- C10.  `addFileSource` emits `sourceAdded` exactly once on both the
success and the failure path (on failure it carries the error-status
source), while `dataProcessed` is emitted only on the success path,
carrying the source id and the parsed records. -/
theorem addFileSource_event_discipline (p : ParsePlatform) (st : ManagerState)
    (newId : String) (now : Nat) (file : File) :
    ((addFileSource p st newId now file).events.countP isSourceAdded = 1) ∧
    (∀ recs, parseFile p file = Except.ok recs →
      (addFileSource p st newId now file).events =
        [Event.sourceAdded (fileSource newId now file "active"),
         Event.dataProcessed newId recs]) ∧
    (∀ e, parseFile p file = Except.error e →
      (addFileSource p st newId now file).events =
        [Event.sourceAdded (fileSource newId now file "error")] ∧
      (addFileSource p st newId now file).events.countP isDataProcessed = 0) := by
  cases hp : parseFile p file with
  | ok recs =>
    refine ⟨?_, ?_, ?_⟩
    · simp [addFileSource, hp, List.countP_cons, isSourceAdded]
    · intro recs2 h2
      injection h2 with h3
      simp [addFileSource, hp, h3]
    · intro e he
      exact absurd he (by simp)
  | error e =>
    refine ⟨?_, ?_, ?_⟩
    · simp [addFileSource, hp, List.countP_cons, isSourceAdded]
    · intro recs2 h2
      exact absurd h2 (by simp)
    · intro e2 he
      injection he with h3
      simp [addFileSource, hp, h3, List.countP_cons, isDataProcessed, isSourceAdded,
        fileSource]

/-! ## C4: canned sample fallback of threat detection -/

/-- C4.  When no input record is classified suspicious (whatever the
random draws, as long as every per-record classification comes out
false) and the severity filter is `all`, `runAnalysis` with the
`threat-detection` strategy returns exactly the three canned sample
findings, whose ids are `threat-sample-1..3` with severities
high/critical/medium in that order — never an empty result. -/
theorem threat_detection_canned_fallback (rand : Rand) (now : Nat) (data : List Rec)
    (h : ∀ pr ∈ data.enum, isSuspiciousActivity (rand.susp pr.1) pr.2 = false) :
    runAnalysis rand now data { «type» := "threat-detection", severityFilter := "all" } =
      Except.ok (generateSampleThreats now) ∧
    (generateSampleThreats now).map (fun r => r.id) =
      ["threat-sample-1", "threat-sample-2", "threat-sample-3"] ∧
    (generateSampleThreats now).map (fun r => r.severity) =
      ["high", "critical", "medium"] := by
  refine ⟨?_, rfl, rfl⟩
  have hfil : data.enum.filter (fun pr => isSuspiciousActivity (rand.susp pr.1) pr.2) = [] := by
    rw [List.filter_eq_nil_iff]
    intro a ha
    simp [h a ha]
  have hrun : runThreatDetection rand now data = generateSampleThreats now := by
    rw [runThreatDetection]
    simp only [hfil, List.map_nil, List.length_nil]
    rfl
  have hstrat : strategyResults rand now data
      { «type» := "threat-detection", severityFilter := "all" } =
      Except.ok (generateSampleThreats now) := by
    rw [← hrun]; rfl
  have hb : severityPostFilter "all" (generateSampleThreats now) = generateSampleThreats now := by
    rw [severityPostFilter, if_neg (by decide)]
  simp only [runAnalysis, hstrat]
  rw [hb]

/-- Witness for C4: the empty record list with a never-firing random
oracle yields exactly the canned samples. -/
theorem threat_detection_canned_fallback_witness :
    runAnalysis rand0 7 [] { «type» := "threat-detection", severityFilter := "all" } =
      Except.ok (generateSampleThreats 7) ∧
    (generateSampleThreats 7).map (fun r => r.id) =
      ["threat-sample-1", "threat-sample-2", "threat-sample-3"] ∧
    (generateSampleThreats 7).map (fun r => r.severity) =
      ["high", "critical", "medium"] :=
  threat_detection_canned_fallback rand0 7 [] (by decide)

/-! ## C5: the severity post-filter -/

theorem str_eq_empty_of_data_nil (s : String) (h : s.data = []) : s = "" := by
  cases s with
  | mk d => cases h; rfl

/-- C5.  For every strategy result sequence, a configured severity
filter other than `all` (and non-empty, the code's truthiness test)
makes `runAnalysis` return exactly the order-preserving subsequence of
findings whose severity equals the filter value; with filter `all` or no
filter (empty string) the result sequence is returned unchanged. -/
theorem runAnalysis_severity_filter (rand : Rand) (now : Nat) (data : List Rec)
    (config : AnalysisConfig) (results : List AnalysisResult)
    (h : strategyResults rand now data config = Except.ok results) :
    (config.severityFilter ≠ "" → config.severityFilter ≠ "all" →
      runAnalysis rand now data config =
        Except.ok (results.filter (fun r => r.severity == config.severityFilter)) ∧
      (results.filter (fun r => r.severity == config.severityFilter)).Sublist results ∧
      ∀ r ∈ results.filter (fun r => r.severity == config.severityFilter),
        r.severity = config.severityFilter) ∧
    ((config.severityFilter = "" ∨ config.severityFilter = "all") →
      runAnalysis rand now data config = Except.ok results) := by
  constructor
  · intro h1 h2
    have hd : config.severityFilter.data ≠ [] :=
      fun hd => h1 (str_eq_empty_of_data_nil _ hd)
    have ht : strTruthy config.severityFilter = true := by
      rw [strTruthy]
      cases hdata : config.severityFilter.data with
      | nil => exact absurd hdata hd
      | cons a l => rfl
    have hbeq : (config.severityFilter == "all") = false := by
      cases hx : config.severityFilter == "all" with
      | true => exact absurd (by simpa using hx) h2
      | false => rfl
    have hcond : (strTruthy config.severityFilter && !(config.severityFilter == "all")) = true := by
      rw [ht, hbeq]; rfl
    refine ⟨?_, List.filter_sublist _, ?_⟩
    · simp only [runAnalysis, h]
      rw [severityPostFilter, if_pos hcond]
    · intro r hr
      have := List.mem_filter.mp hr
      simpa using this.2
  · intro hor
    have hcond : (strTruthy config.severityFilter && !(config.severityFilter == "all")) = false := by
      rcases hor with he | ha
      · rw [he]; rfl
      · rw [ha]; rfl
    simp only [runAnalysis, h]
    rw [severityPostFilter, if_neg (by rw [hcond]; simp)]

/-- Witness for C5: the `medium` filter applied to the pattern-analysis
strategy results. -/
theorem runAnalysis_severity_filter_witness :
    runAnalysis rand0 0 [] { «type» := "pattern-analysis", severityFilter := "medium" } =
      Except.ok ((runPatternAnalysis 0 []).filter (fun r => r.severity == "medium")) :=
  ((runAnalysis_severity_filter rand0 0 []
      { «type» := "pattern-analysis", severityFilter := "medium" }
      (runPatternAnalysis 0 []) rfl).1 (by decide) (by decide)).1

/-! ## C6: getAllData flattens all stored record sets in order -/

theorem key_not_mem_of_any_false {α : Type} (m : List (String × α)) (k : String)
    (h : m.any (fun p => p.1 == k) = false) : k ∉ m.map Prod.fst := by
  intro hk
  obtain ⟨p, hp, he⟩ := List.mem_map.mp hk
  have := List.any_eq_false.mp h p hp
  simp [he] at this

theorem flatten_lookup_of_sublist {α : Type} (keys : List String) :
    ∀ data : List (String × List α),
    (data.map Prod.fst).Sublist keys → keys.Nodup →
    (data.map Prod.snd).flatten =
      (keys.map (fun k => ((data.find? (fun p => p.1 == k)).map Prod.snd).getD [])).flatten := by
  induction keys with
  | nil =>
    intro data hsub _
    have hd : data = [] := List.map_eq_nil_iff.mp (List.sublist_nil.mp hsub)
    rw [hd]; rfl
  | cons k ks ih =>
    intro data hsub hnd
    have hk_not : k ∉ ks := (List.nodup_cons.mp hnd).1
    have hnd2 : ks.Nodup := (List.nodup_cons.mp hnd).2
    cases data with
    | nil =>
      have hz : (List.map Prod.snd ([] : List (String × List α))).flatten = ([] : List α) := rfl
      rw [hz, eq_comm, List.flatten_eq_nil_iff]
      intro l hl
      obtain ⟨j, _, he⟩ := List.mem_map.mp hl
      rw [← he]; rfl
    | cons a rest =>
      obtain ⟨ak, av⟩ := a
      rw [List.map_cons] at hsub
      cases hsub with
      | cons _ h =>
        have hknot : k ∉ ((ak, av) :: rest).map Prod.fst := by
          intro hin
          exact hk_not (h.subset (by simpa using hin))
        have hfind : ((ak, av) :: rest).find? (fun p => p.1 == k) = none := by
          rw [List.find?_eq_none]
          intro x hx hxk
          exact hknot (List.mem_map.mpr ⟨x, hx, by simpa using hxk⟩)
        conv_rhs => rw [List.map_cons, List.flatten_cons, hfind]
        rw [show ((Option.map Prod.snd (none : Option (String × List α))).getD [] : List α) = []
          from rfl, List.nil_append]
        exact ih ((ak, av) :: rest) (by simpa using h) hnd2
      | cons₂ _ h =>
        have hfind : ((ak, av) :: rest).find? (fun p => p.1 == ak) = some (ak, av) :=
          List.find?_cons_of_pos _ (by simp)
        have htail : ks.map (fun j =>
            (((((ak, av) :: rest).find? (fun p => p.1 == j)).map Prod.snd).getD [] : List α)) =
            ks.map (fun j => (((rest.find? (fun p => p.1 == j)).map Prod.snd).getD [] : List α)) := by
          refine List.map_congr_left (fun j hj => ?_)
          have hne : (ak == j) = false := by
            cases hx : (ak == j) with
            | true =>
              have : ak = j := by simpa using hx
              exact absurd (this ▸ hj) hk_not
            | false => rfl
          rw [List.find?_cons_of_neg _ (by simp [hne])]
        conv_rhs => rw [List.map_cons, List.flatten_cons, hfind, htail]
        rw [List.map_cons, List.flatten_cons]
        exact congrArg (av ++ ·) (ih rest h hnd2)

/-- C6.  At every state whose stored-data keys form an in-order
subsequence of the registered source keys (an invariant of every
reachable registry state) with pairwise distinct source keys,
`getAllData` is the flattened concatenation of every registered
source's stored records, sources in registry insertion order, each
source's records in stored order; and the concrete end-to-end CSV
scenario of the claim holds. -/
theorem getAllData_insertion_order (st : ManagerState)
    (hsub : (st.data.map Prod.fst).Sublist (st.sources.map Prod.fst))
    (hnd : (st.sources.map Prod.fst).Nodup) :
    getAllData st = (st.sources.map (fun pr => getSourceData st pr.1)).flatten ∧
    getAllData (addFileSource demoParse emptyManager "src-1" 0
        ⟨"data.csv", "name,value\na,1\nb,2"⟩).state =
      [[("name", Val.str "a"), ("value", Val.str "1")],
       [("name", Val.str "b"), ("value", Val.str "2")]] := by
  constructor
  · rw [getAllData, flatten_lookup_of_sublist (st.sources.map Prod.fst) st.data hsub hnd]
    congr 1
    rw [List.map_map]
    exact List.map_congr_left (fun pr _ => rfl)
  · decide

/-- Witness for C6: the invariant hypotheses evaluated on the scenario
state itself. -/
theorem getAllData_insertion_order_witness :
    getAllData (addFileSource demoParse emptyManager "src-1" 0
        ⟨"data.csv", "name,value\na,1\nb,2"⟩).state =
      ((addFileSource demoParse emptyManager "src-1" 0
        ⟨"data.csv", "name,value\na,1\nb,2"⟩).state.sources.map
          (fun pr => getSourceData (addFileSource demoParse emptyManager "src-1" 0
            ⟨"data.csv", "name,value\na,1\nb,2"⟩).state pr.1)).flatten :=
  (getAllData_insertion_order (addFileSource demoParse emptyManager "src-1" 0
    ⟨"data.csv", "name,value\na,1\nb,2"⟩).state (by decide) (by decide)).1

/-! ## C7: stability and uniqueness of source ids -/

theorem any_true_of_lookup_some {α : Type} (m : List (String × α)) (k : String) (s : α)
    (h : lookupAssoc m k = some s) : m.any (fun p => p.1 == k) = true :=
  List.any_eq_true.mpr ⟨(k, s), lookup_some_mem m k s h, by simp⟩

/-- Counterexample for C7 as stated: `updateSource` shallow-merges a
`Partial<DataSource>` that may itself contain an `id` field, so the id
held by a registered source can change while it stays registered under
its old key. -/
theorem updateSource_changes_held_id_cex :
    ((updateSource (addFileSource demoParse emptyManager "id1" 0
          ⟨"data.csv", "name,value\na,1"⟩).state "id1"
        { id := some "zzz" } 1).toOption.map
      (fun pr => (lookupAssoc pr.1.sources "id1").map DataSource.id)) =
        some (some "zzz") ∧
    (lookupAssoc (addFileSource demoParse emptyManager "id1" 0
        ⟨"data.csv", "name,value\na,1"⟩).state.sources "id1").map DataSource.id =
      some "id1" ∧
    ("zzz" : String) ≠ "id1" := by
  exact ⟨by decide, by decide, by decide⟩

/-- C7 (amended: the registration key of a source never changes and
registered keys stay pairwise distinct under every modelled registry
operation; the id *held* by the source equals its key and is stable
provided no `updateSource` call supplies an `id` field — a supplied
`id` field overwrites the held id while the key stays put). -/
theorem source_identity_invariant :
    (∀ (st : ManagerState) (id : String) (u : SourceUpdate) (now : Nat)
        (st2 : ManagerState) (ev : Event),
      u.id = none → updateSource st id u now = Except.ok (st2, ev) →
      st2.sources.map Prod.fst = st.sources.map Prod.fst ∧
      (lookupAssoc st2.sources id).map DataSource.id =
        (lookupAssoc st.sources id).map DataSource.id ∧
      (goodState st → goodState st2)) ∧
    (∀ (p : ParsePlatform) (st : ManagerState) (newId : String) (now : Nat) (file : File),
      lookupAssoc st.sources newId = none → goodState st →
      goodState (addFileSource p st newId now file).state) ∧
    (∀ (st : ManagerState) (id : String) (st2 : ManagerState) (ev : Event),
      removeSource st id = Except.ok (st2, ev) → goodState st → goodState st2) := by
  refine ⟨?_, ?_, ?_⟩
  · intro st id u now st2 ev hu hok
    cases hl : lookupAssoc st.sources id with
    | none => rw [updateSource, hl] at hok; cases hok
    | some s =>
      rw [updateSource, hl] at hok
      have hpair := Except.ok.inj hok
      have hst : st2 = { st with sources := setAssoc st.sources id (applyUpdate s u now) } :=
        (congrArg Prod.fst hpair).symm
      subst hst
      have hany := any_true_of_lookup_some st.sources id s hl
      have hid : (applyUpdate s u now).id = s.id := by
        rw [applyUpdate, hu]; rfl
      refine ⟨keys_setAssoc_of_any st.sources id _ hany, ?_, ?_⟩
      · rw [lookup_setAssoc_self]
        simp [hid]
      · intro hg
        refine ⟨?_, ?_⟩
        · rw [keys_setAssoc_of_any st.sources id _ hany]; exact hg.1
        · intro pr hpr
          rcases mem_setAssoc st.sources id _ pr hpr with hin | heq
          · exact hg.2 pr hin
          · rw [heq]
            have hsid : s.id = id := hg.2 (id, s) (lookup_some_mem st.sources id s hl)
            rw [hid, hsid]
  · intro p st newId now file hfresh hg
    have hany : st.sources.any (fun pr => pr.1 == newId) = false :=
      any_eq_false_of_lookup_none st.sources newId hfresh
    have hnotmem : newId ∉ st.sources.map Prod.fst :=
      key_not_mem_of_any_false st.sources newId hany
    have hkeys1 : (setAssoc st.sources newId (fileSource newId now file "active")).map Prod.fst =
        st.sources.map Prod.fst ++ [newId] := keys_setAssoc_of_fresh _ _ _ hany
    have hnd1 : (st.sources.map Prod.fst ++ [newId]).Nodup := by
      rw [List.nodup_append]
      exact ⟨hg.1, List.nodup_singleton newId, by simpa using hnotmem⟩
    cases hp : parseFile p file with
    | ok recs =>
      refine ⟨?_, ?_⟩
      · simp only [addFileSource, hp]
        rw [hkeys1]; exact hnd1
      · simp only [addFileSource, hp]
        intro pr hpr
        rcases mem_setAssoc st.sources newId _ pr hpr with hin | heq
        · exact hg.2 pr hin
        · rw [heq]; rfl
    | error e =>
      have hany2 : (setAssoc st.sources newId (fileSource newId now file "active")).any
          (fun pr => pr.1 == newId) = true :=
        any_true_of_lookup_some _ newId _ (lookup_setAssoc_self _ _ _)
      refine ⟨?_, ?_⟩
      · simp only [addFileSource, hp]
        rw [keys_setAssoc_of_any _ _ _ hany2, hkeys1]; exact hnd1
      · simp only [addFileSource, hp]
        intro pr hpr
        rcases mem_setAssoc _ newId _ pr hpr with hin1 | heq
        · rcases mem_setAssoc st.sources newId _ pr hin1 with hin | heq2
          · exact hg.2 pr hin
          · rw [heq2]; rfl
        · rw [heq]; rfl
  · intro st id st2 ev hok hg
    cases hl : lookupAssoc st.sources id with
    | none => rw [removeSource, hl] at hok; cases hok
    | some s =>
      rw [removeSource, hl] at hok
      have hpair := Except.ok.inj hok
      have hst : st2 = ManagerState.mk (st.sources.filter (fun pr => !(pr.1 == id)))
          (st.data.filter (fun pr => !(pr.1 == id))) :=
        (congrArg Prod.fst hpair).symm
      subst hst
      refine ⟨?_, ?_⟩
      · exact hg.1.sublist ((List.filter_sublist _).map Prod.fst)
      · intro pr hpr
        exact hg.2 pr (List.mem_of_mem_filter hpr)

/-- Witness for C7: registering a fresh text-file source preserves the
identity invariant starting from the empty registry. -/
theorem source_identity_invariant_witness :
    goodState (addFileSource demoParse emptyManager "s9" 0 ⟨"a.txt", "hello"⟩).state :=
  source_identity_invariant.2.1 demoParse emptyManager "s9" 0 ⟨"a.txt", "hello"⟩ rfl
    ⟨List.nodup_nil, by simp [emptyManager]⟩

/-! ## C8: unknown report type / format dispatch -/

/-- Counterexample for C8 as stated: a config whose type **and** format
are both unknown fails with `Unknown report type`, not with
`Unknown report format`, because the content stage runs first. -/
theorem generateReport_both_unknown_cex :
    (generateReport demoReport [] "r1" 0 ⟨"foo", "bar", ""⟩ [] []).2 =
      Except.error "Unknown report type: foo" ∧
    (generateReport demoReport [] "r1" 0 ⟨"foo", "bar", ""⟩ [] []).2 ≠
      Except.error "Unknown report format: bar" := by
  exact ⟨by decide, by decide⟩

/-- C8 (amended: the format error is reached only when the type is
known, since the content stage precedes the encoding stage).
`generateReport` fails with `UnknownReportType` on every config whose
type is outside the four known types, and with `UnknownReportFormat` on
every config whose type is known but whose format is outside
{pdf, html, json}; in both cases the error is re-raised and the report
history is returned unchanged — no partial Report is appended. -/
theorem generateReport_unknown_type_format (p : ReportPlatform) (reports : List Report)
    (newId : String) (now : Nat) (config : ReportConfig)
    (results : List AnalysisResult) (data : List Rec) :
    (config.«type» ∉ (["executive-summary", "technical-analysis", "threat-assessment",
        "incident-report"] : List String) →
      generateReport p reports newId now config results data =
        (reports, Except.error ("Unknown report type: " ++ config.«type»))) ∧
    (config.«type» ∈ (["executive-summary", "technical-analysis", "threat-assessment",
        "incident-report"] : List String) →
      config.format ∉ (["pdf", "html", "json"] : List String) →
      generateReport p reports newId now config results data =
        (reports, Except.error ("Unknown report format: " ++ config.format))) := by
  constructor
  · intro h
    simp only [List.mem_cons, List.not_mem_nil, or_false, not_or] at h
    obtain ⟨h1, h2, h3, h4⟩ := h
    have hc : reportContent p config.«type» results data =
        Except.error ("Unknown report type: " ++ config.«type») := by
      rw [reportContent, if_neg h1, if_neg h2, if_neg h3, if_neg h4]
    simp only [generateReport, hc]
  · intro ht hf
    simp only [List.mem_cons, List.not_mem_nil, or_false, not_or] at hf
    obtain ⟨f1, f2, f3⟩ := hf
    simp only [List.mem_cons, List.not_mem_nil, or_false] at ht
    have he : ∀ r : Report, r.format = config.format →
        encodeReport p r results data =
          Except.error ("Unknown report format: " ++ config.format) := by
      intro r hr
      rw [encodeReport, hr, if_neg f1, if_neg f2, if_neg f3]
    have hc : reportContent p config.«type» results data =
        Except.ok ((fun t => if t = "executive-summary" then generateExecutiveSummary results data
          else if t = "technical-analysis" then generateTechnicalAnalysis p results data
          else if t = "threat-assessment" then generateThreatAssessment results data
          else generateIncidentReport p results data) config.«type») := by
      rcases ht with h | h | h | h <;> rw [reportContent, h] <;> simp
    simp only [generateReport, hc]
    rw [he _ rfl]

/-- Witness for C8: a known type with an unknown format fails with the
format error and an unchanged (empty) history. -/
theorem generateReport_unknown_type_format_witness :
    generateReport demoReport [] "r1" 0 ⟨"threat-assessment", "xml", ""⟩ [] [] =
      ([], Except.error ("Unknown report format: " ++ "xml")) :=
  (generateReport_unknown_type_format demoReport [] "r1" 0
    ⟨"threat-assessment", "xml", ""⟩ [] []).2 (by decide) (by decide)

/-- Witness for C10: a well-formed CSV upload emits `sourceAdded` once
and `dataProcessed` with the parsed records. -/
theorem addFileSource_event_discipline_witness :
    (addFileSource demoParse emptyManager "s1" 0 ⟨"a.csv", "h,k\n1,2"⟩).events.countP
        isSourceAdded = 1 ∧
    (addFileSource demoParse emptyManager "s1" 0 ⟨"a.csv", "h,k\n1,2"⟩).events =
      [Event.sourceAdded (fileSource "s1" 0 ⟨"a.csv", "h,k\n1,2"⟩ "active"),
       Event.dataProcessed "s1" [[("h", Val.str "1"), ("k", Val.str "2")]]] := by
  have h := addFileSource_event_discipline demoParse emptyManager "s1" 0 ⟨"a.csv", "h,k\n1,2"⟩
  exact ⟨h.1, h.2.1 [[("h", Val.str "1"), ("k", Val.str "2")]] (by decide)⟩

end IRG
